import Mathlib

/-!
Verification development for the QR scanner development server
(src/server.py).  The request handlers are shallowly embedded as pure
Lean functions over an explicit environment: the module flag
QR_AVAILABLE, the result of loading qr-data.json, the file-existence
oracle used by os.path.exists, and the external qrcode encoding
pipeline (an abstract function from payload text to PNG bytes, which
may fail).  HTTP responses are records of status code, header list and
body; send_error is modelled as a response whose body is the error
message.  String primitives used by the Python code (str.split,
str.startswith, str.isdigit, int(), urllib.parse.parse_qs,
base64.b64encode) are modelled over the character lists of Lean
strings so that every definition evaluates by kernel reduction.
-/

/-- One entry of the qrCodes array of qr-data.json: a display name, the
payload text to encode, and a display color token. -/
structure Preset where
  name : String
  text : String
  color : String
deriving DecidableEq

/-- The parsed contents of qr-data.json: the ordered qrCodes array. -/
structure QRData where
  qrCodes : List Preset
deriving DecidableEq

/-- The environment a request executes in: the QR_AVAILABLE import flag,
the outcome of load_qr_data (none models a missing or corrupt
qr-data.json), the os.path.exists oracle, the external qrcode encoding
pipeline (payload text to PNG bytes, as naturals below 256; error
models any exception raised while encoding), and the behavior of the
inherited SimpleHTTPRequestHandler static file server (its status,
extra headers and body are arbitrary - only its use of end_headers is
fixed by the subclass). -/
structure Env where
  qrAvailable : Bool
  dataFile : Option QRData
  fileExists : String → Bool
  encode : String → Except String (List Nat)
  staticStatus : Nat
  staticHeaders : List (String × String)
  staticBody : String

/-- An HTTP response: status code, headers in emission order, body text.
For error responses the body is the short message passed to
send_error. -/
structure Response where
  status : Nat
  headers : List (String × String)
  body : String
deriving DecidableEq

/-- The argument tuple of a generate_qr_page call: payload text, display
name, display color, and the optional pre-generated artifact path. -/
structure RenderCall where
  text : String
  name : String
  color : String
  qr_image_path : Option String
deriving DecidableEq

/-- Python str.split with a one-character separator, accumulator form.
Splitting never drops empty fields, matching Python semantics. -/
def pySplitAux (sep : Char) : List Char → List Char → List (List Char)
  | [], acc => [acc.reverse]
  | c :: cs, acc =>
    if c = sep then acc.reverse :: pySplitAux sep cs []
    else pySplitAux sep cs (c :: acc)

/-- Python str.split with a one-character separator (the only separators
the server uses are single characters). -/
def pySplit (sep : Char) (s : String) : List String :=
  (pySplitAux sep s.data []).map (fun l => String.mk l)

/-- Python str.startswith. -/
def pyStartsWith (s pre : String) : Bool :=
  List.isPrefixOf pre.data s.data

/-- Python str.isdigit on one character, restricted to the code points
that can occur in an HTTP request path (http.server decodes the raw
request line as ISO-8859-1, so self.path only contains code points
below 256).  In that range Python classifies the ASCII decimal digits
and the Latin-1 superscripts one, two, three as digits. -/
def pyCharIsDigit (c : Char) : Bool :=
  c.isDigit || c = '¹' || c = '²' || c = '³'

/-- Python str.isdigit on a whole string: nonempty and every character
is a digit. -/
def pyIsDigit (s : String) : Bool :=
  !s.data.isEmpty && s.data.all pyCharIsDigit

/-- Python int() applied to a digit-classified string: it succeeds
exactly on nonempty all-ASCII-decimal strings; on superscript digits
(which str.isdigit accepts) it raises ValueError, modelled as none. -/
def pyIntOfDigits (s : String) : Option Nat :=
  if !s.data.isEmpty && s.data.all Char.isDigit then
    some (s.data.foldl (fun a c => a * 10 + (c.toNat - 48)) 0)
  else none

/-- Join a list of strings with a separator; models str.join as used to
reassemble the text after maxsplit-1 splits. -/
def joinSep (sep : String) : List String → String
  | [] => ""
  | [x] => x
  | x :: xs => x ++ sep ++ joinSep sep xs

/-- Value of a hexadecimal digit character, none when not hex. -/
def hexVal (c : Char) : Option Nat :=
  if ('0' ≤ c) ∧ (c ≤ '9') then some (c.toNat - 48)
  else if ('a' ≤ c) ∧ (c ≤ 'f') then some (c.toNat - 87)
  else if ('A' ≤ c) ∧ (c ≤ 'F') then some (c.toNat - 55)
  else none

/-- The percent-decoding and plus-replacement performed by
urllib.parse.parse_qsl on names and values: a literal plus becomes a
space, a valid percent escape becomes the escaped byte, an invalid
escape is kept literally.  Multi-byte UTF-8 escape sequences decode to
one character per byte in this model; no claim depends on the exact
text of multi-byte payloads. -/
def pctDecode : List Char → List Char
  | [] => []
  | '%' :: a :: b :: rest =>
    match hexVal a, hexVal b with
    | some ha, some hb => Char.ofNat (ha * 16 + hb) :: pctDecode rest
    | _, _ => '%' :: pctDecode (a :: b :: rest)
  | c :: rest => (if c = '+' then ' ' else c) :: pctDecode rest

/-- urllib.parse.unquote composed with the plus replacement, as
parse_qsl applies to each name and value. -/
def unquote_plus (s : String) : String :=
  String.mk (pctDecode s.data)

/-- urllib.parse.parse_qs on the query string, restricted to what
params.get uses: the ordered pairs it extracts.  With the default
keep_blank_values=False a pair without an equals sign and a pair whose
raw value is empty are both dropped. -/
def parse_qsl (qs : String) : List (String × String) :=
  (pySplit '&' qs).filterMap (fun nv =>
    if nv = "" then none
    else
      match pySplit '=' nv with
      | [] => none
      | [_] => none
      | nm :: vs =>
        let v := joinSep "=" vs
        if v = "" then none
        else some (unquote_plus nm, unquote_plus v))

/-- params.get('text', [''])[0] over the parsed query: the first value
bound to the text key, or the empty string. -/
def get_text_param (qs : String) : String :=
  match (parse_qsl qs).filter (fun p => p.fst = "text") with
  | [] => ""
  | p :: _ => p.snd

/-- urllib.parse.urlparse(self.path).query: the part of the path after
the first question mark, with any fragment (after the first hash)
removed first. -/
def urlparse_query (path : String) : String :=
  match pySplit '?' ((pySplit '#' path).getD 0 "") with
  | [] => ""
  | [_] => ""
  | _ :: rest => joinSep "?" rest

/-- The base64 alphabet character for a 6-bit value. -/
def b64Char (n : Nat) : Char :=
  ("ABCDEFGHIJKLMNOPQRSTUVWXYZabcdefghijklmnopqrstuvwxyz0123456789+/").data.getD n 'A'

/-- base64.b64encode over a byte list (each entry below 256), with the
standard padding. -/
def base64Encode : List Nat → String
  | [] => ""
  | [a] => String.mk [b64Char (a / 4), b64Char (a % 4 * 16)] ++ "=="
  | [a, b] => String.mk [b64Char (a / 4), b64Char (a % 4 * 16 + b / 16), b64Char (b % 16 * 4)] ++ "="
  | a :: b :: c :: rest =>
    String.mk [b64Char (a / 4), b64Char (a % 4 * 16 + b / 16), b64Char (b % 16 * 4 + c / 64), b64Char (c % 64)]
      ++ base64Encode rest

/-- The three CORS headers that the overridden end_headers adds
(src/server.py lines 31-36). -/
def corsHeaders : List (String × String) :=
  [("Access-Control-Allow-Origin", "*"),
   ("Access-Control-Allow-Methods", "GET, POST, OPTIONS"),
   ("Access-Control-Allow-Headers", "Content-Type")]

/-- end_headers of CustomHTTPRequestHandler: whatever headers a handler
already queued are followed by the three CORS headers before the head
is flushed.  Every response of the server - success, error, and the
inherited static file serving - terminates its headers through this
override. -/
def end_headers (hs : List (String × String)) : List (String × String) :=
  hs ++ corsHeaders

/-- send_error of the base handler: an error status whose short message
is the response body, with headers terminated by end_headers. -/
def send_error (code : Nat) (message : String) : Response :=
  { status := code
    headers := end_headers [("Content-Type", "text/html;charset=utf-8"), ("Connection", "close")]
    body := message }

/-- The send_response(200) / send_header Content-type / end_headers /
wfile.write sequence both page handlers use for a successful page. -/
def send_ok_html (html : String) : Response :=
  { status := 200
    headers := end_headers [("Content-type", "text/html")]
    body := html }

/-- The inherited SimpleHTTPRequestHandler.do_GET: its status, extra
headers and body come from the environment, but its headers pass
through the overridden end_headers like every other response. -/
def staticServe (env : Env) : Response :=
  { status := env.staticStatus
    headers := end_headers env.staticHeaders
    body := env.staticBody }

/-- load_qr_data: opening and JSON-parsing qr-data.json; any exception
yields None (src/server.py lines 113-120).  The outcome is part of the
environment because the file is re-read on every request. -/
def load_qr_data (env : Env) : Option QRData :=
  env.dataFile

/-- Python truthiness of the optional qr_image_path argument: None and
the empty string are falsy. -/
def pyTruthy : Option String → Bool
  | none => false
  | some s => !s.data.isEmpty

/-- Template piece of generate_qr_page up to the title interpolation of
name.  The static CSS of the page is condensed; every interpolation
point of the f-string and its surrounding markup is kept in source
order (src/server.py lines 149-235). -/
def qrT1 : String := "\n<!DOCTYPE html>\n<html lang=\"en\">\n<head>\n<meta charset=\"UTF-8\">\n<title>QR Code: "

/-- Template piece between the title name and the color interpolation
of the color-indicator CSS rule. -/
def qrT2 : String := "</title>\n<style>\n.color-indicator \x7b background-color: "

/-- Template piece between the color interpolation and the h1 name. -/
def qrT3 : String := "; \x7d\n</style>\n</head>\n<body>\n<div class=\"container\">\n<h1>"

/-- Template piece between the h1 name and the image tag. -/
def qrT4 : String := "</h1>\n<div class=\"qr-image\">\n"

/-- Opening of the image tag, up to the src attribute value. -/
def qrT5 : String := "<img src=\""

/-- Closing quote of the src attribute value. -/
def qrT6 : String := "\""

/-- Template piece between the image tag and the literal payload text
inside the text-content div. -/
def qrT7 : String := " alt=\"QR Code\" />\n</div>\n<div class=\"qr-info\">\n<div class=\"color-indicator\"></div>\n<div class=\"text-content\">"

/-- Template tail after the payload text: navigation links back to the
generator and to the root application page. -/
def qrT8 : String := "</div>\n</div>\n<a href=\"/generator\" class=\"back-link\">Back to Generator</a>\n<a href=\"/\" class=\"back-link\">Go to Scanner</a>\n</div>\n</body>\n</html>\n"

/-- The f-string HTML document of generate_qr_page, with its
interpolations in source order: name in the title, color in the
color-indicator rule, name in the h1 heading, the image source in the
img tag, the literal payload text in the text-content div. -/
def qrPageHtml (text name color img_src : String) : String :=
  qrT1 ++ name ++ qrT2 ++ color ++ qrT3 ++ name ++ qrT4 ++ qrT5 ++ img_src ++ qrT6 ++ qrT7 ++ text ++ qrT8

/-- generate_qr_page (src/server.py lines 122-243): when a truthy
artifact path was supplied and the file exists, the page references it
by URL path; otherwise the image is encoded in-process from the
payload text and embedded as a base64 data URI.  Any exception in the
fallback encoding yields HTTP 500 with the exception text. -/
def generate_qr_page (env : Env) (c : RenderCall) : Response :=
  if pyTruthy c.qr_image_path && env.fileExists (c.qr_image_path.getD "") then
    send_ok_html (qrPageHtml c.text c.name c.color ("/" ++ c.qr_image_path.getD ""))
  else
    match env.encode c.text with
    | Except.error e => send_error 500 ("QR generation failed: " ++ e)
    | Except.ok bytes =>
      send_ok_html (qrPageHtml c.text c.name c.color ("data:image/png;base64," ++ base64Encode bytes))

/-- One dropdown option of the selector page: name, a dash, the payload
text truncated to 30 characters with an ellipsis marker when longer. -/
def preset_option (i : Nat) (qr : Preset) : String :=
  "<option value=\"" ++ toString i ++ "\">" ++ qr.name ++ " - " ++ String.mk (qr.text.data.take 30)
    ++ (if qr.text.data.length > 30 then "..." else "") ++ "</option>\n"

/-- One preset card of the selector grid: a click target to /qr/i
showing name, full text and a color swatch. -/
def preset_card (i : Nat) (qr : Preset) : String :=
  "\n<div class=\"preset-card\" onclick=\"window.location.href=\x27/qr/" ++ toString i
    ++ "\x27\">\n<div class=\"preset-info\">\n<h4>" ++ qr.name ++ "</h4>\n<p>" ++ qr.text
    ++ "</p>\n<div class=\"preset-color\" style=\"background-color: " ++ qr.color
    ++ ";\"></div>\n</div>\n</div>\n"

/-- Head of the selector page up to and including the placeholder
dropdown option; static CSS and the custom-text script are condensed
(src/server.py lines 262-426). -/
def selT1 : String := "\n<!DOCTYPE html>\n<html lang=\"en\">\n<head>\n<title>QR Code Generator</title>\n</head>\n<body>\n<select id=\"qrSelect\">\n<option value=\"\">Choose a preset QR code...</option>\n"

/-- Selector page markup between the dropdown options and the grid. -/
def selT2 : String := "</select>\n<input type=\"text\" id=\"customText\" />\n<button>Generate Custom QR Code</button>\n<div class=\"preset-grid\">\n"

/-- Tail of the selector page after the preset grid. -/
def selT3 : String := "</div>\n</body>\n</html>\n"

/-- generate_qr_selector_html: the enumerate loop building the dropdown
options and the preset grid, spliced into the page template. -/
def generate_qr_selector_html (d : QRData) : String :=
  selT1 ++ String.join (d.qrCodes.enum.map (fun p => preset_option p.1 p.2))
    ++ selT2 ++ String.join (d.qrCodes.enum.map (fun p => preset_card p.1 p.2)) ++ selT3

/-- serve_qr_generator_page (src/server.py lines 95-111): load the
preset data; a falsy result is HTTP 500 with the message, otherwise
the selector HTML is served with status 200. -/
def serve_qr_generator_page (env : Env) : Response :=
  match load_qr_data env with
  | none => send_error 500 "Could not load QR data"
  | some d => send_ok_html (generate_qr_selector_html d)

/-- self.path.split('/') as computed at src/server.py line 60. -/
def path_parts (path : String) : List String :=
  pySplit '/' path

/-- path_parts[2].split('?')[0], the request segment after /qr/ with
any query string stripped (src/server.py line 65). -/
def qr_type_of (path : String) : String :=
  (pySplit '?' ((path_parts path).getD 2 "")).getD 0 ""

/-- The default entry used to state list indexing after the bounds
check; the handler never reads it out of bounds. -/
def emptyPreset : Preset :=
  { name := "", text := "", color := "" }

/-- The renderer argument tuple built for /qr/custom: the decoded text
parameter, the fixed display name, the fixed neutral color, and no
pre-generated artifact path (src/server.py line 75). -/
def customCall (path : String) : RenderCall :=
  { text := get_text_param (urlparse_query path)
    name := "Custom QR Code"
    color := "#666666"
    qr_image_path := none }

/-- The renderer argument tuple built for an in-range preset index: the
entry fields and the artifact path qr-images/qr_index.png
(src/server.py lines 85-87). -/
def indexCall (d : QRData) (index : Nat) : RenderCall :=
  { text := (d.qrCodes.getD index emptyPreset).text
    name := (d.qrCodes.getD index emptyPreset).name
    color := (d.qrCodes.getD index emptyPreset).color
    qr_image_path := some ("qr-images/qr_" ++ toString index ++ ".png") }

/-- handle_qr_request (src/server.py lines 52-93), paired with the
generate_qr_page invocation it performs, when any.  The guard on
QR_AVAILABLE runs before any parsing; the custom segment requires a
nonempty text query parameter; an all-digit segment is parsed with
int() - reaching 404 when the data is unloadable or the index is out
of range - and any other segment is a 400; int() raising on a
digit-classified but non-decimal segment is caught by the enclosing
try and reported as HTTP 500. -/
def handle_qr_request (env : Env) (path : String) : Response × Option RenderCall :=
  if env.qrAvailable = false then
    (send_error 500 "QR code library not installed. Run: pip install qrcode[pil]", none)
  else if (path_parts path).length < 3 then
    (send_error 400 "Invalid QR request", none)
  else if qr_type_of path = "custom" then
    if get_text_param (urlparse_query path) = "" then
      (send_error 400 "Missing text parameter", none)
    else
      (generate_qr_page env (customCall path), some (customCall path))
  else if pyIsDigit (qr_type_of path) then
    match pyIntOfDigits (qr_type_of path) with
    | none =>
      (send_error 500 ("QR generation error: invalid literal for int() with base 10: " ++ qr_type_of path), none)
    | some index =>
      match load_qr_data env with
      | none => (send_error 404 "QR code not found", none)
      | some d =>
        if d.qrCodes.length ≤ index then
          (send_error 404 "QR code not found", none)
        else
          (generate_qr_page env (indexCall d index), some (indexCall d index))
  else
    (send_error 400 "Invalid QR request", none)

/-- do_GET of CustomHTTPRequestHandler (src/server.py lines 42-50):
paths with prefix /qr/ go to the QR handler, the exact paths
/generator and /generator/ go to the selector page, everything else
falls through to the inherited static file server. -/
def do_GET (env : Env) (path : String) : Response × Option RenderCall :=
  if pyStartsWith path "/qr/" then
    handle_qr_request env path
  else if path = "/generator" || path = "/generator/" then
    (serve_qr_generator_page env, none)
  else
    (staticServe env, none)

/-- The artifact filename for preset index i, as written by the
pre-generation batch and expected by the indexed route. -/
def qrFileName (i : Nat) : String :=
  "qr_" ++ toString i ++ ".png"

/-- Whether the external encoding pipeline succeeds on a payload. -/
def encodeOk (env : Env) (t : String) : Bool :=
  match env.encode t with
  | Except.ok _ => true
  | Except.error _ => false

/-- The per-entry loop of generate_all_qr_images: each entry whose
encoding succeeds contributes its artifact file; a failing entry is
caught and skipped without affecting later entries. -/
def genLoop (env : Env) : Nat → List Preset → List String
  | _, [] => []
  | i, qr :: rest =>
    if encodeOk env qr.text then qrFileName i :: genLoop env (i + 1) rest
    else genLoop env (i + 1) rest

/-- generate_all_qr_images (src/server.py lines 428-480), modelled on
the contents of the output directory: when the library is unavailable
the function returns before touching the directory; otherwise the
directory is removed and recreated empty, and if the data file then
fails to load the enclosing except leaves it empty and returns False;
otherwise the per-entry loop fills it and the run returns True. -/
def generate_all_qr_images (env : Env) (fs : List String) : List String × Bool :=
  if env.qrAvailable = false then
    (fs, false)
  else
    match load_qr_data env with
    | none => ([], false)
    | some d => (genLoop env 0 d.qrCodes, true)

/-- The two-preset example data of the specification scenario. -/
def demoPresets : List Preset :=
  [{ name := "Red", text := "RED", color := "#ff0000" },
   { name := "Blue", text := "BLUE", color := "#0000ff" }]

/-- A concrete working environment: library available, two presets
loaded, no pre-generated artifacts on disk, encoding always returning
the same four PNG bytes. -/
def demoEnv : Env :=
  { qrAvailable := true
    dataFile := some { qrCodes := demoPresets }
    fileExists := fun _ => false
    encode := fun _ => Except.ok [137, 80, 78, 71]
    staticStatus := 200
    staticHeaders := [("Content-type", "text/css")]
    staticBody := "body" }

/-- The same environment with qr-data.json missing or corrupt. -/
def noDataEnv : Env :=
  { demoEnv with dataFile := none }

/-- The same environment with every (nonempty) artifact path present on
disk; the empty path does not exist, as with os.path.exists. -/
def artifactEnv : Env :=
  { demoEnv with fileExists := fun s => !s.data.isEmpty }

/-- An environment with a working encoder except on the RED payload:
used to exhibit that one failing entry does not block the others. -/
def flakyEnv : Env :=
  { demoEnv with encode := fun t => if t = "BLUE" then Except.ok [1, 2, 3] else Except.error "boom" }

/-- String containment, stated on the character lists: the needle
occurs contiguously inside the haystack. -/
def strIn (needle hay : String) : Prop :=
  needle.data <:+: hay.data

/-- A response carries the three permissive cross-origin headers. -/
def hasCORS (r : Response) : Prop :=
  ("Access-Control-Allow-Origin", "*") ∈ r.headers
    ∧ ("Access-Control-Allow-Methods", "GET, POST, OPTIONS") ∈ r.headers
    ∧ ("Access-Control-Allow-Headers", "Content-Type") ∈ r.headers

/-- Appending strings concatenates their character lists. -/
theorem strData_append (a b : String) : (a ++ b).data = a.data ++ b.data :=
  rfl

/-- A string equal to pre ++ mid ++ post contains mid. -/
theorem strIn_build (pre mid post hay : String)
    (h : hay.data = pre.data ++ mid.data ++ post.data) : strIn mid hay :=
  ⟨pre.data, post.data, h.symm⟩

/-- The rendered page contains the display name (it appears in the h1
heading and the title). -/
theorem strIn_page_name (text name color src : String) :
    strIn name (qrPageHtml text name color src) := by
  apply strIn_build qrT1 name
    (qrT2 ++ color ++ qrT3 ++ name ++ qrT4 ++ qrT5 ++ src ++ qrT6 ++ qrT7 ++ text ++ qrT8)
  simp [qrPageHtml, strData_append, List.append_assoc]

/-- The rendered page contains the literal payload text (inside the
text-content div). -/
theorem strIn_page_text (text name color src : String) :
    strIn text (qrPageHtml text name color src) := by
  apply strIn_build
    (qrT1 ++ name ++ qrT2 ++ color ++ qrT3 ++ name ++ qrT4 ++ qrT5 ++ src ++ qrT6 ++ qrT7) text qrT8
  simp [qrPageHtml, strData_append, List.append_assoc]

/-- The rendered page contains the img tag with exactly the given
source value between the src attribute quotes. -/
theorem strIn_page_src (text name color src : String) :
    strIn (qrT5 ++ src ++ qrT6) (qrPageHtml text name color src) := by
  apply strIn_build (qrT1 ++ name ++ qrT2 ++ color ++ qrT3 ++ name ++ qrT4)
    (qrT5 ++ src ++ qrT6) (qrT7 ++ text ++ qrT8)
  simp [qrPageHtml, strData_append, List.append_assoc]

/-- A short path (fewer than three slash-separated parts) yields the
empty segment. -/
theorem qr_type_of_short (path : String) (h : (path_parts path).length < 3) :
    qr_type_of path = "" := by
  unfold qr_type_of
  rw [List.getD_eq_default _ _ (by omega : (path_parts path).length ≤ 2)]
  rfl

/-- A character accepted by int() is also accepted by str.isdigit. -/
theorem pyCharIsDigit_of_isDigit {c : Char} (h : c.isDigit = true) :
    pyCharIsDigit c = true := by
  simp [pyCharIsDigit, h]

/-- A segment that int() parses is classified as digits by
str.isdigit. -/
theorem pyIsDigit_of_parse (s : String) (i : Nat) (h : pyIntOfDigits s = some i) :
    pyIsDigit s = true := by
  unfold pyIntOfDigits at h
  split at h
  · rename_i hc
    simp only [Bool.and_eq_true, List.all_eq_true] at hc
    simp only [pyIsDigit, Bool.and_eq_true, List.all_eq_true]
    exact ⟨hc.1, fun c hm => pyCharIsDigit_of_isDigit (hc.2 c hm)⟩
  · exact absurd h (by simp)

/-- A segment that int() parses is not the literal custom segment. -/
theorem parse_ne_custom (s : String) (i : Nat) (h : pyIntOfDigits s = some i) :
    s ≠ "custom" := by
  intro he
  rw [he, (by decide : pyIntOfDigits "custom" = none)] at h
  cases h

/-- A segment that int() parses is nonempty, so a short path is
impossible when the segment parses. -/
theorem parts_long_of_parse (path : String) (i : Nat)
    (h : pyIntOfDigits (qr_type_of path) = some i) :
    ¬ (path_parts path).length < 3 := by
  intro hs
  rw [qr_type_of_short path hs, (by decide : pyIntOfDigits "" = none)] at h
  cases h

/-- The artifact path handed to the renderer is truthy in Python. -/
theorem truthy_artifact (t : String) :
    pyTruthy (some ("qr-images/qr_" ++ t ++ ".png")) = true := by
  have ha : ("qr-images/qr_" : String).data = 'q' :: ("r-images/qr_" : String).data := rfl
  simp [pyTruthy, strData_append, ha]

/-- Any header list terminated by end_headers carries the CORS
headers. -/
theorem hasCORS_end_headers (st : Nat) (hs : List (String × String)) (b : String) :
    hasCORS { status := st, headers := end_headers hs, body := b } := by
  refine ⟨?_, ?_, ?_⟩ <;> simp [end_headers, corsHeaders]

/-- Error responses carry the CORS headers. -/
theorem hasCORS_send_error (c : Nat) (m : String) : hasCORS (send_error c m) :=
  hasCORS_end_headers c _ m

/-- Successful HTML responses carry the CORS headers. -/
theorem hasCORS_send_ok (h : String) : hasCORS (send_ok_html h) :=
  hasCORS_end_headers 200 _ h

/-- Static file responses carry the CORS headers. -/
theorem hasCORS_static (env : Env) : hasCORS (staticServe env) :=
  hasCORS_end_headers _ _ _

/-- Every outcome of the page renderer carries the CORS headers. -/
theorem hasCORS_page (env : Env) (c : RenderCall) : hasCORS (generate_qr_page env c) := by
  unfold generate_qr_page
  split
  · exact hasCORS_send_ok _
  · cases env.encode c.text with
    | error e => exact hasCORS_send_error _ _
    | ok b => exact hasCORS_send_ok _

/-- Every outcome of the selector page handler carries the CORS
headers. -/
theorem hasCORS_selector (env : Env) : hasCORS (serve_qr_generator_page env) := by
  unfold serve_qr_generator_page
  cases load_qr_data env with
  | none => exact hasCORS_send_error _ _
  | some d => exact hasCORS_send_ok _

/-- Every outcome of the QR request handler carries the CORS headers. -/
theorem hasCORS_handle (env : Env) (path : String) : hasCORS (handle_qr_request env path).1 := by
  unfold handle_qr_request
  by_cases h1 : env.qrAvailable = false
  · rw [if_pos h1]; exact hasCORS_send_error _ _
  rw [if_neg h1]
  by_cases h2 : (path_parts path).length < 3
  · rw [if_pos h2]; exact hasCORS_send_error _ _
  rw [if_neg h2]
  by_cases h3 : qr_type_of path = "custom"
  · rw [if_pos h3]
    by_cases h4 : get_text_param (urlparse_query path) = ""
    · rw [if_pos h4]; exact hasCORS_send_error _ _
    · rw [if_neg h4]; exact hasCORS_page _ _
  rw [if_neg h3]
  by_cases h5 : pyIsDigit (qr_type_of path) = true
  · rw [if_pos h5]
    cases pyIntOfDigits (qr_type_of path) with
    | none => exact hasCORS_send_error _ _
    | some index =>
      cases load_qr_data env with
      | none => exact hasCORS_send_error _ _
      | some d =>
        by_cases h6 : d.qrCodes.length ≤ index
        · simp only [if_pos h6]; exact hasCORS_send_error _ _
        · simp only [if_neg h6]; exact hasCORS_page _ _
  · rw [if_neg h5]; exact hasCORS_send_error _ _

/-- A path whose segment is the custom literal has at least three
slash-separated parts. -/
theorem parts_long_of_custom (path : String) (hc : qr_type_of path = "custom") :
    ¬ (path_parts path).length < 3 := by
  intro hs
  rw [qr_type_of_short path hs] at hc
  exact absurd hc (by decide)

/-- Reduction of the handler on a segment that int() parses: only the
data lookup and the bounds check remain. -/
theorem handle_digit_branch (env : Env) (path : String) (i : Nat)
    (hq : env.qrAvailable = true)
    (hparse : pyIntOfDigits (qr_type_of path) = some i) :
    handle_qr_request env path =
      (match load_qr_data env with
       | none => (send_error 404 "QR code not found", none)
       | some d =>
         if d.qrCodes.length ≤ i then (send_error 404 "QR code not found", none)
         else (generate_qr_page env (indexCall d i), some (indexCall d i))) := by
  have hnq : ¬ env.qrAvailable = false := by simp [hq]
  have h2 : ¬ (path_parts path).length < 3 := parts_long_of_parse path i hparse
  have h3 : ¬ qr_type_of path = "custom" := parse_ne_custom _ i hparse
  have h5 : pyIsDigit (qr_type_of path) = true := pyIsDigit_of_parse _ i hparse
  unfold handle_qr_request
  rw [if_neg hnq, if_neg h2, if_neg h3, if_pos h5, hparse]

/-- Reduction of the handler on the custom segment: only the text
parameter check remains. -/
theorem handle_custom_branch (env : Env) (path : String)
    (hq : env.qrAvailable = true)
    (hc : qr_type_of path = "custom") :
    handle_qr_request env path =
      (if get_text_param (urlparse_query path) = "" then
        (send_error 400 "Missing text parameter", none)
       else
        (generate_qr_page env (customCall path), some (customCall path))) := by
  have hnq : ¬ env.qrAvailable = false := by simp [hq]
  have h2 : ¬ (path_parts path).length < 3 := parts_long_of_custom path hc
  unfold handle_qr_request
  rw [if_neg hnq, if_neg h2, if_pos hc]

/-- The renderer uses the supplied artifact path when it is truthy and
the file exists. -/
theorem page_artifact (env : Env) (c : RenderCall) (p : String)
    (hp : c.qr_image_path = some p) (htr : pyTruthy (some p) = true)
    (hfe : env.fileExists p = true) :
    generate_qr_page env c = send_ok_html (qrPageHtml c.text c.name c.color ("/" ++ p)) := by
  simp [generate_qr_page, hp, htr, hfe]

/-- The renderer falls back to in-process encoding when the guard on
the artifact path fails and the encoder succeeds. -/
theorem page_fallback_ok (env : Env) (c : RenderCall)
    (hguard : (pyTruthy c.qr_image_path && env.fileExists (c.qr_image_path.getD "")) = false)
    (b : List Nat) (henc : env.encode c.text = Except.ok b) :
    generate_qr_page env c
      = send_ok_html (qrPageHtml c.text c.name c.color ("data:image/png;base64," ++ base64Encode b)) := by
  simp [generate_qr_page, hguard, henc]

/-- Membership in the per-entry pre-generation loop: an artifact is
produced exactly for the in-range entries whose encoding succeeds,
independent of failures of other entries. -/
theorem genLoop_mem (env : Env) (f : String) :
    ∀ (l : List Preset) (k : Nat),
      f ∈ genLoop env k l
        ↔ ∃ j, j < l.length ∧ encodeOk env ((l.getD j emptyPreset).text) = true
            ∧ f = qrFileName (k + j) := by
  intro l
  induction l with
  | nil => intro k; simp [genLoop]
  | cons p rest ih =>
    intro k
    by_cases hp : encodeOk env p.text = true
    · rw [show genLoop env k (p :: rest) = qrFileName k :: genLoop env (k + 1) rest from by
        simp [genLoop, hp]]
      constructor
      · intro hm
        rcases List.mem_cons.mp hm with h0 | h1
        · exact ⟨0, by simp, by simpa using hp, by simpa using h0⟩
        · rcases (ih (k + 1)).mp h1 with ⟨j, hj, hok, hf⟩
          refine ⟨j + 1, by simpa using Nat.succ_lt_succ hj, by simpa using hok, ?_⟩
          rw [hf]; congr 1; omega
      · rintro ⟨j, hj, hok, hf⟩
        cases j with
        | zero => exact List.mem_cons.mpr (Or.inl (by simpa using hf))
        | succ j' =>
          refine List.mem_cons.mpr (Or.inr ((ih (k + 1)).mpr ⟨j', ?_, ?_, ?_⟩))
          · simpa using Nat.lt_of_succ_lt_succ hj
          · simpa using hok
          · rw [hf]; congr 1; omega
    · rw [show genLoop env k (p :: rest) = genLoop env (k + 1) rest from by
        simp [genLoop, hp]]
      rw [ih (k + 1)]
      constructor
      · rintro ⟨j, hj, hok, hf⟩
        refine ⟨j + 1, by simpa using Nat.succ_lt_succ hj, by simpa using hok, ?_⟩
        rw [hf]; congr 1; omega
      · rintro ⟨j, hj, hok, hf⟩
        cases j with
        | zero => exact absurd (by simpa using hok) hp
        | succ j' =>
          refine ⟨j', ?_, ?_, ?_⟩
          · simpa using Nat.lt_of_succ_lt_succ hj
          · simpa using hok
          · rw [hf]; congr 1; omega

/-- C6: every HTTP response the server emits - success or error, on
every route including static file serving - carries the permissive
cross-origin headers Access-Control-Allow-Origin *,
Access-Control-Allow-Methods GET, POST, OPTIONS and
Access-Control-Allow-Headers Content-Type. -/
theorem c6_cors_all_responses (env : Env) (path : String) :
    hasCORS (do_GET env path).1 := by
  unfold do_GET
  split
  · exact hasCORS_handle env path
  · split
    · exact hasCORS_selector env
    · exact hasCORS_static env

/-- C7: route dispatch precedence of do_GET - a /qr/ prefix goes to the
QR handler, otherwise the exact paths /generator and /generator/ go to
the selector renderer, and any other path is handed to the static file
server unmodified. -/
theorem c7_route_dispatch (env : Env) (path : String) :
    (pyStartsWith path "/qr/" = true → do_GET env path = handle_qr_request env path)
    ∧ (pyStartsWith path "/qr/" = false → (path = "/generator" ∨ path = "/generator/") →
        do_GET env path = (serve_qr_generator_page env, none))
    ∧ (pyStartsWith path "/qr/" = false → path ≠ "/generator" → path ≠ "/generator/" →
        do_GET env path = (staticServe env, none)) := by
  refine ⟨?_, ?_, ?_⟩
  · intro h; simp [do_GET, h]
  · rintro h (hg | hg) <;> subst hg <;> simp [do_GET, h]
  · intro h hg1 hg2; simp [do_GET, h, hg1, hg2]

/-- C7 witness: the dispatch equations at three concrete paths. -/
theorem c7_route_dispatch_witness :
    do_GET demoEnv "/qr/0" = handle_qr_request demoEnv "/qr/0"
    ∧ do_GET demoEnv "/generator" = (serve_qr_generator_page demoEnv, none)
    ∧ do_GET demoEnv "/index.html" = (staticServe demoEnv, none) :=
  ⟨(c7_route_dispatch demoEnv "/qr/0").1 (by decide),
   (c7_route_dispatch demoEnv "/generator").2.1 (by decide) (Or.inl rfl),
   (c7_route_dispatch demoEnv "/index.html").2.2 (by decide) (by decide) (by decide)⟩

/-- C9: with the QR encoding library unavailable at import time, every
request whose path starts with /qr/ is answered 500 with the install
message before any route classification, and the page renderer is
never invoked - in particular an existing pre-generated artifact is
never served by path reference in that state. -/
theorem c9_qr_unavailable (env : Env) (path : String)
    (hq : env.qrAvailable = false)
    (hp : pyStartsWith path "/qr/" = true) :
    do_GET env path
      = (send_error 500 "QR code library not installed. Run: pip install qrcode[pil]", none) := by
  rw [show do_GET env path = handle_qr_request env path from by simp [do_GET, hp]]
  unfold handle_qr_request
  rw [if_pos hq]

/-- C9 witness: the unavailable-library environment still has every
artifact on disk and a valid index, yet /qr/0 is answered 500 with no
renderer call. -/
theorem c9_qr_unavailable_witness :
    do_GET { artifactEnv with qrAvailable := false } "/qr/0"
      = (send_error 500 "QR code library not installed. Run: pip install qrcode[pil]", none) :=
  c9_qr_unavailable { artifactEnv with qrAvailable := false } "/qr/0" (by decide) (by decide)

/-- C10: handling a /qr/custom request never reads the preset data
file - for any path routed to the custom branch with a nonempty text
value, the full response is identical across any two states of the
data file. -/
theorem c10_custom_independent_of_data (env : Env) (d1 d2 : Option QRData) (path : String)
    (hc : qr_type_of path = "custom")
    (ht : get_text_param (urlparse_query path) ≠ "")
    (hp : pyStartsWith path "/qr/" = true) :
    do_GET { env with dataFile := d1 } path = do_GET { env with dataFile := d2 } path := by
  rw [show do_GET { env with dataFile := d1 } path = handle_qr_request { env with dataFile := d1 } path from by
        simp [do_GET, hp],
      show do_GET { env with dataFile := d2 } path = handle_qr_request { env with dataFile := d2 } path from by
        simp [do_GET, hp]]
  by_cases hq : env.qrAvailable = true
  · rw [handle_custom_branch { env with dataFile := d1 } path hq hc,
        handle_custom_branch { env with dataFile := d2 } path hq hc]
    rw [if_neg ht, if_neg ht]
    simp [generate_qr_page, customCall]
  · unfold handle_qr_request
    rw [if_pos (show ({ env with dataFile := d1 } : Env).qrAvailable = false by simpa using hq),
        if_pos (show ({ env with dataFile := d2 } : Env).qrAvailable = false by simpa using hq)]

/-- C10 witness: the custom request /qr/custom?text=hello is answered
identically with the data file present and with it missing. -/
theorem c10_custom_independent_of_data_witness :
    do_GET { demoEnv with dataFile := some { qrCodes := demoPresets } } "/qr/custom?text=hello"
      = do_GET { demoEnv with dataFile := none } "/qr/custom?text=hello" :=
  c10_custom_independent_of_data demoEnv (some { qrCodes := demoPresets }) none
    "/qr/custom?text=hello" (by decide) (by decide) (by decide)

/-- The rendered page contains the image source value itself. -/
theorem strIn_page_srcval (text name color src : String) :
    strIn src (qrPageHtml text name color src) := by
  apply strIn_build (qrT1 ++ name ++ qrT2 ++ color ++ qrT3 ++ name ++ qrT4 ++ qrT5) src
    (qrT6 ++ qrT7 ++ text ++ qrT8)
  simp [qrPageHtml, strData_append, List.append_assoc]

/-- A successful encodeOk check produces the encoded bytes. -/
theorem encodeOk_exists (env : Env) (t : String) (h : encodeOk env t = true) :
    ∃ b, env.encode t = Except.ok b := by
  unfold encodeOk at h
  cases he : env.encode t with
  | ok b => exact ⟨b, rfl⟩
  | error e => rw [he] at h; cases h

/-- C1: for a working environment with the preset sequence loaded, every
request routed to /qr/ whose segment parses as an in-range index i is
answered 200 with a page containing the preset name and its literal
payload text, and the renderer is invoked with the entry fields and
the artifact path qr-images/qr_i.png (provided the page can actually
be produced: the artifact exists on disk or the in-process encoder
succeeds on the payload). -/
theorem c1_indexed_request_ok (env : Env) (path : String) (i : Nat) (d : QRData)
    (hq : env.qrAvailable = true)
    (hp : pyStartsWith path "/qr/" = true)
    (hparse : pyIntOfDigits (qr_type_of path) = some i)
    (hd : env.dataFile = some d)
    (hi : i < d.qrCodes.length)
    (hready : env.fileExists ("qr-images/qr_" ++ toString i ++ ".png") = true
      ∨ encodeOk env ((d.qrCodes.getD i emptyPreset).text) = true) :
    (do_GET env path).1.status = 200
    ∧ strIn ((d.qrCodes.getD i emptyPreset).name) (do_GET env path).1.body
    ∧ strIn ((d.qrCodes.getD i emptyPreset).text) (do_GET env path).1.body
    ∧ (do_GET env path).2 = some { text := (d.qrCodes.getD i emptyPreset).text
                                   name := (d.qrCodes.getD i emptyPreset).name
                                   color := (d.qrCodes.getD i emptyPreset).color
                                   qr_image_path := some ("qr-images/qr_" ++ toString i ++ ".png") } := by
  have hroute : do_GET env path = handle_qr_request env path := by simp [do_GET, hp]
  have hb : ¬ d.qrCodes.length ≤ i := Nat.not_le.mpr hi
  rw [hroute, handle_digit_branch env path i hq hparse,
      show load_qr_data env = some d from hd]
  simp only [if_neg hb]
  by_cases hfe : env.fileExists ("qr-images/qr_" ++ toString i ++ ".png") = true
  · rw [show generate_qr_page env (indexCall d i)
        = send_ok_html (qrPageHtml (indexCall d i).text (indexCall d i).name (indexCall d i).color
            ("/" ++ ("qr-images/qr_" ++ toString i ++ ".png"))) from
      page_artifact env (indexCall d i) ("qr-images/qr_" ++ toString i ++ ".png") rfl
        (truthy_artifact (toString i)) hfe]
    exact ⟨rfl, strIn_page_name _ _ _ _, strIn_page_text _ _ _ _, rfl⟩
  · have henc : encodeOk env ((d.qrCodes.getD i emptyPreset).text) = true := by
      rcases hready with h | h
      · exact absurd h hfe
      · exact h
    obtain ⟨b, hbs⟩ := encodeOk_exists env _ henc
    have hfe' : env.fileExists ("qr-images/qr_" ++ toString i ++ ".png") = false := by
      simpa using hfe
    rw [show generate_qr_page env (indexCall d i)
        = send_ok_html (qrPageHtml (indexCall d i).text (indexCall d i).name (indexCall d i).color
            ("data:image/png;base64," ++ base64Encode b)) from
      page_fallback_ok env (indexCall d i) (by simp [indexCall, hfe']) b hbs]
    exact ⟨rfl, strIn_page_name _ _ _ _, strIn_page_text _ _ _ _, rfl⟩

/-- C1 witness: /qr/0 in the demo environment is answered 200, the page
contains the name Red and the payload RED, and the renderer receives
the artifact path qr-images/qr_0.png. -/
theorem c1_indexed_request_ok_witness :
    (do_GET demoEnv "/qr/0").1.status = 200
    ∧ strIn "Red" (do_GET demoEnv "/qr/0").1.body
    ∧ strIn "RED" (do_GET demoEnv "/qr/0").1.body
    ∧ (do_GET demoEnv "/qr/0").2 = some { text := "RED"
                                          name := "Red"
                                          color := "#ff0000"
                                          qr_image_path := some "qr-images/qr_0.png" } :=
  c1_indexed_request_ok demoEnv "/qr/0" 0 { qrCodes := demoPresets }
    rfl (by decide) (by decide) rfl (by decide) (Or.inr (by decide))

/-- C2 counterexample: the segment of the path /qr/SUPERSCRIPT-TWO is
not the custom literal and is not a numeric index, so the claim
promises HTTP 400 and excludes 500; the code classifies it as digits
(Python str.isdigit accepts the Latin-1 superscript), int() then
raises, and the enclosing try answers HTTP 500. -/
theorem c2_nonnumeric_counterexample :
    (do_GET demoEnv "/qr/²").1.status = 500
    ∧ ¬ (do_GET demoEnv "/qr/²").1.status = 400 := by
  decide

/-- C2 as amended: on a working environment, for /qr/ paths whose
segment is not custom - a segment int() parses as i is answered 404
when the data is unloadable or i is out of range; a segment rejected
by str.isdigit is answered 400; a segment accepted by str.isdigit that
int() cannot parse (a non-decimal digit such as a superscript) is
answered 500; and a 200 only ever arises for a parsed in-range
index. -/
theorem c2_segment_statuses (env : Env) (path : String)
    (hq : env.qrAvailable = true)
    (hp : pyStartsWith path "/qr/" = true)
    (hnc : qr_type_of path ≠ "custom") :
    (∀ i, pyIntOfDigits (qr_type_of path) = some i →
        ((env.dataFile = none → (do_GET env path).1 = send_error 404 "QR code not found")
         ∧ ∀ d, env.dataFile = some d → d.qrCodes.length ≤ i →
             (do_GET env path).1 = send_error 404 "QR code not found"))
    ∧ (pyIsDigit (qr_type_of path) = false →
        (do_GET env path).1 = send_error 400 "Invalid QR request")
    ∧ (pyIsDigit (qr_type_of path) = true → pyIntOfDigits (qr_type_of path) = none →
        (do_GET env path).1.status = 500)
    ∧ ((do_GET env path).1.status = 200 →
        ∃ i d, pyIntOfDigits (qr_type_of path) = some i ∧ env.dataFile = some d
          ∧ i < d.qrCodes.length) := by
  have hroute : do_GET env path = handle_qr_request env path := by simp [do_GET, hp]
  have hnqa : ¬ env.qrAvailable = false := by simp [hq]
  rw [hroute]
  refine ⟨?_, ?_, ?_, ?_⟩
  · intro i hparse
    rw [handle_digit_branch env path i hq hparse]
    constructor
    · intro hd
      rw [show load_qr_data env = none from hd]
    · intro d hd hle
      rw [show load_qr_data env = some d from hd]
      show (if d.qrCodes.length ≤ i then (send_error 404 "QR code not found", (none : Option RenderCall))
            else (generate_qr_page env (indexCall d i), some (indexCall d i))).1
          = send_error 404 "QR code not found"
      rw [if_pos hle]
  · intro hnd
    unfold handle_qr_request
    rw [if_neg hnqa]
    by_cases h2 : (path_parts path).length < 3
    · rw [if_pos h2]
    · rw [if_neg h2, if_neg hnc, if_neg (by simp [hnd])]
  · intro hdig hnone
    have h2 : ¬ (path_parts path).length < 3 := by
      intro hs
      rw [qr_type_of_short path hs] at hdig
      exact absurd hdig (by decide)
    unfold handle_qr_request
    rw [if_neg hnqa, if_neg h2, if_neg hnc, if_pos hdig, hnone]
    rfl
  · intro h200
    unfold handle_qr_request at h200
    rw [if_neg hnqa] at h200
    by_cases h2 : (path_parts path).length < 3
    · rw [if_pos h2] at h200
      exact absurd (show (400 : Nat) = 200 from h200) (by decide)
    rw [if_neg h2, if_neg hnc] at h200
    by_cases h5 : pyIsDigit (qr_type_of path) = true
    · rw [if_pos h5] at h200
      cases hps : pyIntOfDigits (qr_type_of path) with
      | none =>
        rw [hps] at h200
        exact absurd (show (500 : Nat) = 200 from h200) (by decide)
      | some i =>
        rw [hps] at h200
        cases hdf : load_qr_data env with
        | none =>
          rw [hdf] at h200
          exact absurd (show (404 : Nat) = 200 from h200) (by decide)
        | some d =>
          rw [hdf] at h200
          have h200i : (if d.qrCodes.length ≤ i then
                (send_error 404 "QR code not found", (none : Option RenderCall))
              else (generate_qr_page env (indexCall d i), some (indexCall d i))).1.status = 200 := h200
          by_cases h6 : d.qrCodes.length ≤ i
          · rw [if_pos h6] at h200i
            exact absurd (show (404 : Nat) = 200 from h200i) (by decide)
          · exact ⟨i, d, rfl, hdf, Nat.not_le.mp h6⟩
    · rw [if_neg h5] at h200
      exact absurd (show (400 : Nat) = 200 from h200) (by decide)

/-- C2 witness for the amended statement: out-of-range /qr/5 is 404,
alphabetic /qr/x is 400, superscript /qr/SUPERSCRIPT-TWO is 500. -/
theorem c2_segment_statuses_witness :
    (do_GET demoEnv "/qr/5").1 = send_error 404 "QR code not found"
    ∧ (do_GET demoEnv "/qr/x").1 = send_error 400 "Invalid QR request"
    ∧ (do_GET demoEnv "/qr/²").1.status = 500 :=
  ⟨((c2_segment_statuses demoEnv "/qr/5" rfl (by decide) (by decide)).1 5 (by decide)).2
      { qrCodes := demoPresets } rfl (by decide),
   (c2_segment_statuses demoEnv "/qr/x" rfl (by decide) (by decide)).2.1 (by decide),
   (c2_segment_statuses demoEnv "/qr/²" rfl (by decide) (by decide)).2.2.1 (by decide) (by decide)⟩

/-- C3: a request routed to the custom segment with the text parameter
missing or empty is answered 400 Missing text parameter with no
renderer call; a nonempty value is forwarded to the renderer with the
fixed name Custom QR Code, the fixed color, and no artifact path, and
when the encoder succeeds the page is a 200 embedding the image as a
base64 data URI. -/
theorem c3_custom_text (env : Env) (path : String)
    (hq : env.qrAvailable = true)
    (hp : pyStartsWith path "/qr/" = true)
    (hc : qr_type_of path = "custom") :
    (get_text_param (urlparse_query path) = "" →
        do_GET env path = (send_error 400 "Missing text parameter", none))
    ∧ (get_text_param (urlparse_query path) ≠ "" →
        (do_GET env path).2 = some { text := get_text_param (urlparse_query path)
                                     name := "Custom QR Code"
                                     color := "#666666"
                                     qr_image_path := none }
        ∧ ∀ b, env.encode (get_text_param (urlparse_query path)) = Except.ok b →
            (do_GET env path).1.status = 200
            ∧ strIn ("data:image/png;base64," ++ base64Encode b) (do_GET env path).1.body) := by
  have hroute : do_GET env path = handle_qr_request env path := by simp [do_GET, hp]
  rw [hroute, handle_custom_branch env path hq hc]
  constructor
  · intro ht; rw [if_pos ht]
  · intro ht
    rw [if_neg ht]
    refine ⟨rfl, ?_⟩
    intro b hb
    rw [show generate_qr_page env (customCall path)
        = send_ok_html (qrPageHtml (customCall path).text (customCall path).name (customCall path).color
            ("data:image/png;base64," ++ base64Encode b)) from
      page_fallback_ok env (customCall path) (by simp [customCall, pyTruthy]) b hb]
    exact ⟨rfl, strIn_page_srcval _ _ _ _⟩

/-- C3 witness: /qr/custom and /qr/custom?text= are 400 Missing text
parameter; /qr/custom?text=hello invokes the renderer with hello, the
fixed name and color and no artifact path, and is answered 200. -/
theorem c3_custom_text_witness :
    do_GET demoEnv "/qr/custom" = (send_error 400 "Missing text parameter", none)
    ∧ do_GET demoEnv "/qr/custom?text=" = (send_error 400 "Missing text parameter", none)
    ∧ (do_GET demoEnv "/qr/custom?text=hello").2
        = some { text := "hello", name := "Custom QR Code", color := "#666666", qr_image_path := none }
    ∧ (do_GET demoEnv "/qr/custom?text=hello").1.status = 200 :=
  ⟨(c3_custom_text demoEnv "/qr/custom" rfl (by decide) (by decide)).1 (by decide),
   (c3_custom_text demoEnv "/qr/custom?text=" rfl (by decide) (by decide)).1 (by decide),
   ((c3_custom_text demoEnv "/qr/custom?text=hello" rfl (by decide) (by decide)).2 (by decide)).1,
   (((c3_custom_text demoEnv "/qr/custom?text=hello" rfl (by decide) (by decide)).2 (by decide)).2
      [137, 80, 78, 71] rfl).1⟩

/-- C4 counterexample: with the data file missing, the selector page is
indeed 500, but the indexed request /qr/0 - which also needs the
preset sequence - is answered 404, not the claimed 500. -/
theorem c4_data_unavailable_counterexample :
    (do_GET noDataEnv "/generator").1.status = 500
    ∧ (do_GET noDataEnv "/qr/0").1.status = 404
    ∧ ¬ (do_GET noDataEnv "/qr/0").1.status = 500 := by
  decide

/-- C4 as amended: when the preset data file cannot be loaded, the
selector page returns HTTP 500 Could not load QR data, while an
indexed /qr/ request whose segment parses returns HTTP 404 QR code not
found; both are ordinary responses, so the process does not crash. -/
theorem c4_data_unavailable (env : Env) (path : String) (i : Nat)
    (hd : env.dataFile = none) :
    (do_GET env "/generator").1 = send_error 500 "Could not load QR data"
    ∧ (env.qrAvailable = true → pyStartsWith path "/qr/" = true →
        pyIntOfDigits (qr_type_of path) = some i →
        (do_GET env path).1 = send_error 404 "QR code not found") := by
  constructor
  · rw [show do_GET env "/generator" = (serve_qr_generator_page env, none) from by
      unfold do_GET; rw [if_neg (by decide), if_pos (by decide)]]
    unfold serve_qr_generator_page
    rw [show load_qr_data env = none from hd]
  · intro hq hp hparse
    rw [show do_GET env path = handle_qr_request env path from by simp [do_GET, hp],
        handle_digit_branch env path i hq hparse,
        show load_qr_data env = none from hd]

/-- C4 witness for the amended statement: the no-data environment
answers the selector with 500 and /qr/0 with 404. -/
theorem c4_data_unavailable_witness :
    (do_GET noDataEnv "/generator").1 = send_error 500 "Could not load QR data"
    ∧ (do_GET noDataEnv "/qr/0").1 = send_error 404 "QR code not found" :=
  ⟨(c4_data_unavailable noDataEnv "/qr/0" 0 rfl).1,
   (c4_data_unavailable noDataEnv "/qr/0" 0 rfl).2 rfl (by decide) (by decide)⟩

/-- C5: the renderer references a supplied artifact by URL path exactly
when the file exists on disk; otherwise - no path supplied, or the
file absent - it synthesizes the image in-process from the payload
text and embeds it as a base64 data URI (the model performs no file
write in either branch).  The side condition reflects that
os.path.exists is false on the empty path. -/
theorem c5_artifact_or_inline (env : Env) (c : RenderCall)
    (hfs0 : env.fileExists "" = false) :
    (∀ p, c.qr_image_path = some p → env.fileExists p = true →
        (generate_qr_page env c).status = 200
        ∧ strIn (qrT5 ++ ("/" ++ p) ++ qrT6) (generate_qr_page env c).body)
    ∧ ((c.qr_image_path = none ∨ ∀ p, c.qr_image_path = some p → env.fileExists p = false) →
        ∀ b, env.encode c.text = Except.ok b →
          (generate_qr_page env c).status = 200
          ∧ strIn ("data:image/png;base64," ++ base64Encode b) (generate_qr_page env c).body) := by
  constructor
  · intro p hcp hfe
    have htr : pyTruthy (some p) = true := by
      by_cases hne : p.data.isEmpty = true
      · have hpe : p = "" := by
          cases p with
          | mk dl =>
            cases dl with
            | nil => rfl
            | cons c cs => simp [List.isEmpty] at hne
        rw [hpe, hfs0] at hfe
        cases hfe
      · simp [pyTruthy, hne]
    rw [page_artifact env c p hcp htr hfe]
    exact ⟨rfl, strIn_page_src _ _ _ _⟩
  · intro hno b hb
    have hguard : (pyTruthy c.qr_image_path && env.fileExists (c.qr_image_path.getD "")) = false := by
      rcases hno with h | h
      · simp [h, pyTruthy]
      · cases hcp : c.qr_image_path with
        | none => simp [pyTruthy]
        | some p => simp [h p hcp]
    rw [page_fallback_ok env c hguard b hb]
    exact ⟨rfl, strIn_page_srcval _ _ _ _⟩

/-- C5 witness: with the artifact on disk the page references it by URL
path; with no artifact path the page embeds the base64 data URI. -/
theorem c5_artifact_or_inline_witness :
    (generate_qr_page artifactEnv
        { text := "RED", name := "Red", color := "#ff0000", qr_image_path := some "qr-images/qr_0.png" }).status = 200
    ∧ strIn (qrT5 ++ ("/" ++ "qr-images/qr_0.png") ++ qrT6)
        (generate_qr_page artifactEnv
          { text := "RED", name := "Red", color := "#ff0000", qr_image_path := some "qr-images/qr_0.png" }).body
    ∧ (generate_qr_page demoEnv
        { text := "hello", name := "Custom QR Code", color := "#666666", qr_image_path := none }).status = 200
    ∧ strIn ("data:image/png;base64," ++ base64Encode [137, 80, 78, 71])
        (generate_qr_page demoEnv
          { text := "hello", name := "Custom QR Code", color := "#666666", qr_image_path := none }).body :=
  ⟨((c5_artifact_or_inline artifactEnv
        { text := "RED", name := "Red", color := "#ff0000", qr_image_path := some "qr-images/qr_0.png" }
        (by decide)).1 "qr-images/qr_0.png" rfl (by decide)).1,
   ((c5_artifact_or_inline artifactEnv
        { text := "RED", name := "Red", color := "#ff0000", qr_image_path := some "qr-images/qr_0.png" }
        (by decide)).1 "qr-images/qr_0.png" rfl (by decide)).2,
   ((c5_artifact_or_inline demoEnv
        { text := "hello", name := "Custom QR Code", color := "#666666", qr_image_path := none }
        (by decide)).2 (Or.inl rfl) [137, 80, 78, 71] rfl).1,
   ((c5_artifact_or_inline demoEnv
        { text := "hello", name := "Custom QR Code", color := "#666666", qr_image_path := none }
        (by decide)).2 (Or.inl rfl) [137, 80, 78, 71] rfl).2⟩

/-- C8: with the library available and the data file loaded, one
pre-generation run leaves in the output directory exactly the artifact
qr_j.png for each in-range entry j whose encoding succeeds - no
leftover files survive from any previous contents, one entry failing
does not affect the others - and a second run in succession reproduces
the same contents; the run reports success. -/
theorem c8_pregeneration (env : Env) (fs : List String) (d : QRData)
    (hq : env.qrAvailable = true)
    (hd : env.dataFile = some d) :
    (∀ f, f ∈ (generate_all_qr_images env fs).1
        ↔ ∃ j, j < d.qrCodes.length ∧ encodeOk env ((d.qrCodes.getD j emptyPreset).text) = true
            ∧ f = qrFileName j)
    ∧ (generate_all_qr_images env ((generate_all_qr_images env fs).1)).1
        = (generate_all_qr_images env fs).1
    ∧ (generate_all_qr_images env fs).2 = true := by
  have hred : ∀ gs : List String, generate_all_qr_images env gs = (genLoop env 0 d.qrCodes, true) := by
    intro gs
    unfold generate_all_qr_images
    rw [if_neg (by simp [hq]), show load_qr_data env = some d from hd]
  refine ⟨?_, ?_, ?_⟩
  · intro f
    rw [hred fs]
    simpa using genLoop_mem env f d.qrCodes 0
  · rw [hred fs, hred]
  · rw [hred fs]

/-- C8 witness: in the environment whose encoder fails on RED and
succeeds on BLUE, a run over leftover contents reports success, a
second run reproduces the same directory, and qr_1.png is present
exactly because entry 1 encodes. -/
theorem c8_pregeneration_witness :
    (generate_all_qr_images flakyEnv ["stale_9.png"]).2 = true
    ∧ (generate_all_qr_images flakyEnv ((generate_all_qr_images flakyEnv ["stale_9.png"]).1)).1
        = (generate_all_qr_images flakyEnv ["stale_9.png"]).1
    ∧ ("qr_1.png" ∈ (generate_all_qr_images flakyEnv ["stale_9.png"]).1
        ↔ ∃ j, j < 2 ∧ encodeOk flakyEnv ((demoPresets.getD j emptyPreset).text) = true
            ∧ "qr_1.png" = qrFileName j) :=
  ⟨(c8_pregeneration flakyEnv ["stale_9.png"] { qrCodes := demoPresets } rfl rfl).2.2,
   (c8_pregeneration flakyEnv ["stale_9.png"] { qrCodes := demoPresets } rfl rfl).2.1,
   (c8_pregeneration flakyEnv ["stale_9.png"] { qrCodes := demoPresets } rfl rfl).1 "qr_1.png"⟩

example : pySplit '/' "/qr/5" = ["", "qr", "5"] := by decide
example : pySplit '/' "" = [""] := by decide
example : get_text_param "text=hi" = "hi" := by decide
example : get_text_param "text=" = "" := by decide
example : get_text_param "a=1" = "" := by decide
example : unquote_plus "a+b%21" = "a b!" := by decide
example : base64Encode [77, 97, 110] = "TWFu" := by decide
example : base64Encode [77, 97] = "TWE=" := by decide
